import Mathlib

/-!
Verification of the PII detector/validator/de-identifier core
(`main.py`, `config/patterns.py`, `src/detection/detector.py`,
`src/validation/validators.py`, `src/deidentification/*.py`).

Text values are embedded as `List Char`.  Python's `re` matching is embedded
per pattern by a direct transcription of each regex's backtracking semantics
(leftmost scan, alternation tries the left branch first, greedy quantifiers
prefer longer, lazy quantifiers prefer shorter).  Mutable module-level
dictionaries (pseudonymization counters/maps, the selective de-identifier's
function attributes) are embedded as an explicit state record threaded through
the calls.  `random.choices` is embedded by a draw stream `g : Nat → Nat`
giving the index of each successive draw.  Python dictionary subscripting that
can raise `KeyError` is embedded as `Option`-returning lookup, with `none`
for the exception.
-/

namespace PiiDetector

/-! ### Basic character classes and Python string helpers -/

/-- Python `\d` / `str.isdigit` restricted to ASCII: `'0'`–`'9'`. -/
def isDigitC (c : Char) : Bool := '0' ≤ c && c ≤ '9'

/-- `[A-Z]`. -/
def isUpperAZ (c : Char) : Bool := 'A' ≤ c && c ≤ 'Z'

/-- `[a-z]`. -/
def isLowerAZ (c : Char) : Bool := 'a' ≤ c && c ≤ 'z'

/-- Python regex `\w` (ASCII): letters, digits, underscore. -/
def isWordC (c : Char) : Bool := isUpperAZ c || isLowerAZ c || isDigitC c || c = '_'

/-- Python `\s` (ASCII whitespace): space, tab, newline, CR, VT, FF. -/
def isPySpace (c : Char) : Bool :=
  c = ' ' || c = '\t' || c = '\n' || c = '\x0d' || c = '\x0b' || c = '\x0c'

/-- Word-character test on an optional character (edge of text counts as
non-word), used for `\b` boundaries. -/
def isWordO : Option Char → Bool
  | none => false
  | some c => isWordC c

/-- Python regex `\b`: true iff exactly one side of the position is a word
character. -/
def wordBoundary (prev next : Option Char) : Bool := isWordO prev != isWordO next

/-- Python `str.strip()` (leading and trailing whitespace removed). -/
def pyStrip (l : List Char) : List Char :=
  ((l.dropWhile isPySpace).reverse.dropWhile isPySpace).reverse

/-- Python `str.split(sep)` for a single-character separator: every occurrence
splits, empty pieces are kept (`"".split(c) = [""]`, `"@".split("@") = ["",""]`). -/
def splitOnChar (sep : Char) : List Char → List (List Char)
  | [] => [[]]
  | c :: r =>
    let rest := splitOnChar sep r
    if c = sep then [] :: rest
    else
      match rest with
      | h :: t => (c :: h) :: t
      | [] => [[c]]

/-- The decimal digit character for `n < 10` (used to render Python's `int`
in f-strings). -/
def digitChar10 (n : Nat) : Char :=
  match n with
  | 0 => '0' | 1 => '1' | 2 => '2' | 3 => '3' | 4 => '4'
  | 5 => '5' | 6 => '6' | 7 => '7' | 8 => '8' | 9 => '9'
  | _ => '0'

/-- Fuel-structured decimal rendering (the fuel only bounds the recursion
depth; `natChars` supplies enough for every number). -/
def natCharsAux : Nat → Nat → List Char
  | 0, _ => []
  | fuel + 1, n =>
    if n < 10 then [digitChar10 n]
    else natCharsAux fuel (n / 10) ++ [digitChar10 (n % 10)]

/-- Decimal rendering of a natural number, as Python's `str(int)` renders the
(non-negative) counters interpolated in f-strings. -/
def natChars (n : Nat) : List Char := natCharsAux (n + 1) n

/-- Numeric value of a decimal digit character. -/
def digitVal (c : Char) : Nat := c.toNat - 48

/-- Parse a digit-character list back to the number it renders. -/
def parseDec (l : List Char) : Nat := l.foldl (fun a c => a * 10 + digitVal c) 0

theorem parseDec_append_single (xs : List Char) (c : Char) :
    parseDec (xs ++ [c]) = parseDec xs * 10 + digitVal c := by
  simp [parseDec, List.foldl_append]

theorem digitVal_digitChar10 (n : Nat) (h : n < 10) : digitVal (digitChar10 n) = n := by
  interval_cases n <;> decide

theorem parseDec_natCharsAux (fuel : Nat) :
    ∀ n, n < 10 ^ fuel → parseDec (natCharsAux fuel n) = n := by
  induction fuel with
  | zero =>
    intro n hn
    interval_cases n
    simp [natCharsAux, parseDec]
  | succ fuel ih =>
    intro n hn
    by_cases h : n < 10
    · rw [natCharsAux]
      simp only [h, if_true]
      simpa [parseDec] using digitVal_digitChar10 n h
    · rw [natCharsAux]
      simp only [h, if_false]
      have hdiv : n / 10 < 10 ^ fuel := by
        rw [Nat.div_lt_iff_lt_mul (by omega)]
        calc n < 10 ^ (fuel + 1) := hn
        _ = 10 ^ fuel * 10 := by rw [pow_succ]
      rw [parseDec_append_single, ih (n / 10) hdiv,
        digitVal_digitChar10 (n % 10) (Nat.mod_lt _ (by omega))]
      omega

theorem parseDec_natChars (n : Nat) : parseDec (natChars n) = n := by
  have hn : n < 10 ^ (n + 1) := by
    calc n < 10 ^ n := Nat.lt_pow_self (by omega) n
    _ ≤ 10 ^ (n + 1) := Nat.pow_le_pow_right (by omega) (by omega)
  exact parseDec_natCharsAux (n + 1) n hn

theorem natChars_injective : Function.Injective natChars := by
  intro a b h
  have := parseDec_natChars a
  rw [h, parseDec_natChars] at this
  omega

/-! ### Pattern matchers (`config/patterns.py`)

Each compiled regex in the `patterns` dict is embedded as a matcher
`Option Char → List Char → Option Nat`: given the character preceding the
current position and the remaining text, it returns the length of the
(highest-priority) match starting exactly here, `none` if there is none.
Alternation tries the left branch first, greedy quantifiers prefer more
repetitions, lazy quantifiers prefer fewer — Python `re` backtracking
priority. -/

def isDigitO : Option Char → Bool
  | none => false
  | some c => isDigitC c

/-- Driver for `pattern.finditer(text)`: scan left to right; at each position
take the matcher's match if any, record it with its span and resume after it
(after a zero-width match Python advances one position). -/
def finditerAux (m : Option Char → List Char → Option Nat) :
    Nat → Option Char → List Char → Nat → List (List Char × Nat × Nat)
  | 0, _, _, _ => []
  | fuel + 1, prev, cs, pos =>
    match m prev cs with
    | some n =>
      if n = 0 then
        ([], pos, pos) ::
          (match cs with
           | [] => []
           | c :: r => finditerAux m fuel (some c) r (pos + 1))
      else
        (cs.take n, pos, pos + n) ::
          finditerAux m fuel (cs.take n).getLast? (cs.drop n) (pos + n)
    | none =>
      match cs with
      | [] => []
      | c :: r => finditerAux m fuel (some c) r (pos + 1)

def finditer (m : Option Char → List Char → Option Nat) (text : List Char) :
    List (List Char × Nat × Nat) :=
  finditerAux m (text.length + 1) none text 0

/-- The `(?![\d-])` negative lookahead of the aadhaar pattern. -/
def aadhaarNegLook : Option Char → Bool
  | none => true
  | some c => !(isDigitC c || c = '-')

/-- Matcher for `"aadhaar"`:
`(?<!\d)(?:\d{12}|(\d{4})([\-\s])\d{4}\2\d{4})(?![\d-])` — twelve contiguous
digits, or `4-4-4` groups joined by one consistent separator (the `\2`
backreference), not preceded by a digit and not followed by a digit or dash. -/
def aadhaarMatchAt (prev : Option Char) (cs : List Char) : Option Nat :=
  if isDigitO prev then none
  else
    (let first12 := cs.take 12
     if first12.length = 12 && first12.all isDigitC
        && aadhaarNegLook (cs.drop 12).head? then some 12 else none)
    <|>
    (match cs.take 14, (cs.drop 14).head? with
     | [d1, d2, d3, d4, s1, d5, d6, d7, d8, s2, d9, d10, d11, d12], nxt =>
       if [d1, d2, d3, d4].all isDigitC && (s1 = '-' || isPySpace s1)
          && [d5, d6, d7, d8].all isDigitC && s2 = s1
          && [d9, d10, d11, d12].all isDigitC && aadhaarNegLook nxt
       then some 14 else none
     | _, _ => none)

/-- Matcher for `"pan"`: `\b[A-Z]{5}[0-9]{4}[A-Z]{1}\b`. -/
def panMatchAt (prev : Option Char) (cs : List Char) : Option Nat :=
  match cs.take 10, (cs.drop 10).head? with
  | [a, b, c, d, e, f, g, h, i, j], nxt =>
    if wordBoundary prev (some a)
       && [a, b, c, d, e].all isUpperAZ && [f, g, h, i].all isDigitC
       && isUpperAZ j && !(isWordO nxt)
    then some 10 else none
  | _, _ => none

/-- Matcher for `"phone"`: `\b[6-9]\d{9}\b`. -/
def phoneMatchAt (prev : Option Char) (cs : List Char) : Option Nat :=
  match cs.take 10, (cs.drop 10).head? with
  | [a, b, c, d, e, f, g, h, i, j], nxt =>
    if wordBoundary prev (some a) && ('6' ≤ a && a ≤ '9')
       && [b, c, d, e, f, g, h, i, j].all isDigitC && !(isWordO nxt)
    then some 10 else none
  | _, _ => none

/-- The `[ -]` separator class of the credit-card pattern (a literal space or
a literal trailing dash). -/
def isSepCC (c : Char) : Bool := c = ' ' || c = '-'

mutual

/-- The `{13,19}` quantifier of `\b(?:\d[ -]*?){13,19}\b` having matched
`done` units so far, standing just after character `prevc`: greedy, so try
another unit (`\d` then its lazy separators) first, and only then — with at
least 13 units — close the match at the final `\b`. -/
def ccRep : Nat → Nat → Char → List Char → Option Nat
  | 0, _, _, _ => none
  | fuel + 1, done, prevc, cs =>
    (if done < 19 then
       match cs with
       | c :: r => if isDigitC c then (ccSeps fuel (done + 1) c r).map (· + 1) else none
       | [] => none
     else none)
    <|> (if 13 ≤ done && wordBoundary (some prevc) cs.head? then some 0 else none)

/-- The lazy `[ -]*?` inside a credit-card unit: prefer zero separators (hand
control back to the quantifier), extend one separator at a time on failure. -/
def ccSeps : Nat → Nat → Char → List Char → Option Nat
  | 0, _, _, _ => none
  | fuel + 1, done, prevc, cs =>
    ccRep fuel done prevc cs
    <|> (match cs with
         | c :: r => if isSepCC c then (ccSeps fuel done c r).map (· + 1) else none
         | [] => none)

end

/-- Matcher for `"credit_card"`: `\b(?:\d[ -]*?){13,19}\b`. -/
def ccMatchAt (prev : Option Char) (cs : List Char) : Option Nat :=
  if wordBoundary prev cs.head? then ccRep (2 * cs.length + 2) 0 ' ' cs else none

/-- The special characters of the email local-part class
`[a-zA-Z0-9.!#$%&'*+/=?^_`{|}~-]` beyond letters and digits. -/
def emailLocalChars : List Char := ".!#$%&'*+/=?^_`\x7b|\x7d~-".data

def isAlnumC (c : Char) : Bool := isUpperAZ c || isLowerAZ c || isDigitC c

def isLocalC (c : Char) : Bool := isAlnumC c || emailLocalChars.contains c

/-- `[a-zA-Z0-9-]`, the inner run class of a domain label. -/
def isDomR (c : Char) : Bool := isAlnumC c || c = '-'

mutual

/-- After an alphanumeric domain-label head: the optional
`(?:[a-zA-Z0-9-]{0,61}[a-zA-Z0-9])?` (greedy, so the present branch first),
then the label star and the closing `\b`. -/
def emailOpt : Nat → Char → List Char → Option Nat
  | 0, _, _ => none
  | fuel + 1, prevc, cs => emailRun fuel 61 prevc cs <|> emailDots fuel prevc cs

/-- Inside `[a-zA-Z0-9-]{0,61}[a-zA-Z0-9]`: greedily extend the bounded run,
falling back to closing it with one alphanumeric and continuing. -/
def emailRun : Nat → Nat → Char → List Char → Option Nat
  | 0, _, _, _ => none
  | fuel + 1, maxR, _prevc, cs =>
    (if 0 < maxR then
       match cs with
       | c :: r => if isDomR c then (emailRun fuel (maxR - 1) c r).map (· + 1) else none
       | [] => none
     else none)
    <|> (match cs with
         | c :: r => if isAlnumC c then (emailDots fuel c r).map (· + 1) else none
         | [] => none)

/-- The label star `(?:\.[a-zA-Z0-9](?:[a-zA-Z0-9-]{0,61}[a-zA-Z0-9])?)*`
(greedy: another `.label` first), then the closing `\b`. -/
def emailDots : Nat → Char → List Char → Option Nat
  | 0, _, _ => none
  | fuel + 1, prevc, cs =>
    (match cs with
     | '.' :: c :: r => if isAlnumC c then (emailOpt fuel c r).map (· + 2) else none
     | _ => none)
    <|> (if wordBoundary (some prevc) cs.head? then some 0 else none)

end

/-- Matcher for `"email"`:
`\b[a-zA-Z0-9.!#$%&'*+/=?^_`{|}~-]+@[a-zA-Z0-9](?:[a-zA-Z0-9-]{0,61}[a-zA-Z0-9])?(?:\.[a-zA-Z0-9](?:[a-zA-Z0-9-]{0,61}[a-zA-Z0-9])?)*\b`.
The local part `[...]+` is greedy with `@` outside its class, so only the
maximal run can precede the `@`. -/
def emailMatchAt (prev : Option Char) (cs : List Char) : Option Nat :=
  if !wordBoundary prev cs.head? then none
  else
    let run := cs.takeWhile isLocalC
    if run.isEmpty then none
    else
      match cs.drop run.length with
      | '@' :: c :: r =>
        if isAlnumC c then (emailOpt (2 * r.length + 2) c r).map (· + run.length + 2)
        else none
      | _ => none

/-! ### Detector (`src/detection/detector.py`) -/

/-- Association-list lookup, embedding Python dict lookup (`none` = absent
key, i.e. a raised `KeyError` on subscript access). -/
def alookup {α β : Type} [DecidableEq α] : List (α × β) → α → Option β
  | [], _ => none
  | (k, v) :: r, key => if key = k then some v else alookup r key

/-- `TYPE_MAPPING` from `config/patterns.py`: UI display names to internal
pattern keys. -/
def TYPE_MAPPING : List (String × String) :=
  [("Credit Card", "credit_card"), ("Email", "email"), ("Aadhaar", "aadhaar"),
   ("PAN", "pan"), ("Phone", "phone")]

/-- Python `str.lower()` (ASCII). -/
def pyLower (s : String) : String := ⟨s.data.map Char.toLower⟩

/-- `TYPE_MAPPING.get(pii_type, pii_type.lower())`, the key-mapping step
shared by the validators and de-identifiers. -/
def mappedType (t : String) : String := (alookup TYPE_MAPPING t).getD (pyLower t)

/-- `re.sub(r"\D", "", v)`: keep only the digits. -/
def digitsOf (l : List Char) : List Char := l.filter isDigitC

/-- All pattern matches with spans, in the `patterns` dict insertion order
(aadhaar, pan, credit_card, email, phone) — the `span_results` list of
`detect_pii`. -/
def spanResults (text : List Char) : List (String × List Char × Nat × Nat) :=
  (finditer aadhaarMatchAt text).map (fun m => ("aadhaar", m)) ++
  (finditer panMatchAt text).map (fun m => ("pan", m)) ++
  (finditer ccMatchAt text).map (fun m => ("credit_card", m)) ++
  (finditer emailMatchAt text).map (fun m => ("email", m)) ++
  (finditer phoneMatchAt text).map (fun m => ("phone", m))

/-- The 12-digit filter of `detect_pii`: "Never classify pure 12-digit
sequences as credit cards" (the list comprehension over `span_results`). -/
def spanResults2 (text : List Char) : List (String × List Char × Nat × Nat) :=
  (spanResults text).filter
    (fun p => !(p.1 = "credit_card" && (digitsOf p.2.1).length = 12))

/-- `credit_spans`: the spans of the surviving credit-card candidates. -/
def creditSpans (text : List Char) : List (Nat × Nat) :=
  (spanResults2 text).filterMap
    (fun p => if p.1 = "credit_card" then some (p.2.2.1, p.2.2.2) else none)

/-- `filtered_spans`: drop aadhaar candidates fully contained in a credit-card
span. -/
def filteredSpans (text : List Char) : List (String × List Char × Nat × Nat) :=
  (spanResults2 text).filter
    (fun p => !(p.1 = "aadhaar" &&
      (creditSpans text).any (fun q => decide (q.1 ≤ p.2.2.1) && decide (p.2.2.2 ≤ q.2))))

/-- `values_by_type` as a query: the types under which a value string was
detected among `filtered_spans`. -/
def typesForValue (text : List Char) (v : List Char) : List String :=
  (filteredSpans text).filterMap (fun q => if q.2.1 = v then some q.1 else none)

/-- The body of `detect_pii(text)` from `src/detection/detector.py` on the
already-defaulted text: collect all pattern matches, drop 12-digit
credit-card candidates, drop aadhaar candidates whose span lies inside a
surviving credit-card span, and for a value detected as both credit_card and
aadhaar keep only the credit_card entries. -/
def detectPiiOn (safe_text : List Char) : List (String × List Char) :=
  if (spanResults safe_text).isEmpty then []
  else
    (filteredSpans safe_text).filterMap (fun p =>
      if (typesForValue safe_text p.2.1).contains "credit_card"
         && (typesForValue safe_text p.2.1).contains "aadhaar"
         && p.1 = "aadhaar"
      then none else some (p.1, p.2.1))

/-- `detect_pii(text)` proper: `safe_text = text or ""` (`none` embeds Python
`None`), then the staged pipeline above. -/
def detect_pii (text : Option (List Char)) : List (String × List Char) :=
  detectPiiOn (match text with | none => [] | some s => s)

/-! ### Checksum algorithms

`src/validation/validators.py` imports `luhn_check` and `verhoeff_check` from
`.algorithms`, a module of this repository that is not present under `src/`;
both are modelled from the spec (§4.2). -/

/-- Modelled from the spec: `luhn_check` from the missing
`src/validation/algorithms.py` — "standard mod-10 double-and-sum checksum
over all digits of the candidate (ignoring separators)". -/
def luhn_check (value : List Char) : Bool :=
  let ds := ((digitsOf value).reverse).map digitVal
  let total : Nat := (ds.enum.map (fun p =>
    if p.1 % 2 = 1 then (if 9 < 2 * p.2 then 2 * p.2 - 9 else 2 * p.2) else p.2)).sum
  decide (total % 10 = 0)

/-- The multiplication table of the dihedral group D₅ (classic Verhoeff `d`). -/
def verhoeffD : List (List Nat) :=
  [[0, 1, 2, 3, 4, 5, 6, 7, 8, 9], [1, 2, 3, 4, 0, 6, 7, 8, 9, 5],
   [2, 3, 4, 0, 1, 7, 8, 9, 5, 6], [3, 4, 0, 1, 2, 8, 9, 5, 6, 7],
   [4, 0, 1, 2, 3, 9, 5, 6, 7, 8], [5, 9, 8, 7, 6, 0, 4, 3, 2, 1],
   [6, 5, 9, 8, 7, 1, 0, 4, 3, 2], [7, 6, 5, 9, 8, 2, 1, 0, 4, 3],
   [8, 7, 6, 5, 9, 3, 2, 1, 0, 4], [9, 8, 7, 6, 5, 4, 3, 2, 1, 0]]

/-- The permutation table of the classic Verhoeff scheme (`p`). -/
def verhoeffP : List (List Nat) :=
  [[0, 1, 2, 3, 4, 5, 6, 7, 8, 9], [1, 5, 7, 6, 2, 8, 3, 0, 9, 4],
   [5, 8, 0, 3, 7, 9, 6, 1, 4, 2], [8, 9, 1, 6, 0, 4, 3, 5, 2, 7],
   [9, 4, 5, 3, 1, 2, 6, 8, 7, 0], [4, 2, 8, 6, 5, 7, 3, 9, 0, 1],
   [2, 7, 9, 3, 8, 0, 6, 4, 1, 5], [7, 0, 4, 6, 9, 1, 3, 2, 5, 8]]

def tbl2 (t : List (List Nat)) (i j : Nat) : Nat := (t.getD i []).getD j 0

/-- Modelled from the spec: `verhoeff_check` from the missing
`src/validation/algorithms.py` — "dihedral-group checksum over the 12 Aadhaar
digits ... the exact multiplication/permutation tables of the classic
Verhoeff scheme". -/
def verhoeff_check (num : List Char) : Bool :=
  let ds := (num.reverse).map digitVal
  decide ((ds.enum.foldl (fun c p => tbl2 verhoeffD c (tbl2 verhoeffP (p.1 % 8) p.2)) 0) = 0)

/-! ### Validators (`src/validation/validators.py`) -/

/-- One position of the `validate_pan_check_digit` loop: character value
(digits as-is, letters as `A=10…Z=35`) times the positional weight, with the
source's one-step reduction `tens + units` of any product above 9.
(`int(char)` raises `ValueError` on a non-digit in Python; the loop runs only
after `validate_pan`'s shape check, where every character is an uppercase
letter or digit.) -/
def panWeighted (c : Char) (w : Nat) : Nat :=
  let cv := if c.isAlpha then c.toUpper.toNat - 65 + 10 else digitVal c
  let wv := cv * w
  if 9 < wv then wv / 10 + wv % 10 else wv

/-- `validate_pan_check_digit(pan)`: weights `[1,3,7,1,3,7,1,3,7]` over the
first 9 characters; check digit `(10 - sum % 10) % 10` mapped to `A`–`J` and
compared with character 10.  Any length other than 10 returns `False`. -/
def validate_pan_check_digit (pan : List Char) : Bool :=
  match pan with
  | [c1, c2, c3, c4, c5, c6, c7, c8, c9, c10] =>
    let s := panWeighted c1 1 + panWeighted c2 3 + panWeighted c3 7 +
             panWeighted c4 1 + panWeighted c5 3 + panWeighted c6 7 +
             panWeighted c7 1 + panWeighted c8 3 + panWeighted c9 7
    decide (c10 = Char.ofNat (65 + (10 - s % 10) % 10))
  | _ => false

/-- `re.match(r"^[A-Z]{5}[0-9]{4}[A-Z]{1}$", pan)` on the 10-character
(stripped, uppercased) input. -/
def panShapeRe (l : List Char) : Bool :=
  match l with
  | [a, b, c, d, e, f, g, h, i, j] =>
    [a, b, c, d, e].all isUpperAZ && [f, g, h, i].all isDigitC && isUpperAZ j
  | _ => false

/-- `valid_entity_types = "ABCFGHLJPT"` (4th character). -/
def validEntityTypes : List Char := "ABCFGHLJPT".data

/-- The surname branch of `validate_pan`: with entity type `'P'` and a truthy
surname, reject when the 5th character differs from the surname's first
letter.  (A surname that strips to empty raises `IndexError` at `[0]` in the
source; embedded as a rejection — the repository always calls `validate_pan`
without a surname.) -/
def panSurnameReject (pan : List Char) (surname : Option (List Char)) : Bool :=
  match surname with
  | none => false
  | some s =>
    if pan.getD 3 ' ' = 'P' && !s.isEmpty then
      match (pyStrip s).map Char.toUpper with
      | [] => true
      | c :: _ => decide (pan.getD 4 ' ' ≠ c)
    else false

/-- The entity types for which the source additionally requires an alphabetic
5th character. -/
def entityAlphaTypes : List Char := ['C', 'F', 'H', 'A', 'T', 'B', 'L', 'J', 'G']

/-- `validate_pan(pan, surname=None)` from `src/validation/validators.py`:
empty input fails; the input is stripped and uppercased; then length-10,
shape, entity-type, surname, 5th-character and check-digit rules. -/
def validate_pan (pan0 : List Char) (surname : Option (List Char)) : Bool :=
  if pan0 = [] then false
  else
    let pan := (pyStrip pan0).map Char.toUpper
    if pan.length ≠ 10 then false
    else if !panShapeRe pan then false
    else if !(validEntityTypes.contains (pan.getD 3 ' ')) then false
    else if panSurnameReject pan surname then false
    else if entityAlphaTypes.contains (pan.getD 3 ' ') && !(pan.getD 4 ' ').isAlpha then false
    else validate_pan_check_digit pan

/-- `valid_domain_chars` of `validate_email`. -/
def isDomainChar (c : Char) : Bool := isAlnumC c || c = '.' || c = '-'

/-- `'..' in email`. -/
def hasConsecDots (l : List Char) : Bool :=
  (l.zip l.tail).any (fun p => p.1 = '.' && p.2 = '.')

/-- `validate_email(email)` from `src/validation/validators.py`. -/
def validate_email (email0 : List Char) : Bool :=
  if email0 = [] then false
  else
    let email := pyStrip email0
    if email.length < 5 || 254 < email.length then false
    else if email.count '@' ≠ 1 then false
    else
      match splitOnChar '@' email with
      | [local_part, domain_part] =>
        if local_part.length < 1 || 64 < local_part.length then false
        else if domain_part.length < 1 || 253 < domain_part.length then false
        else if hasConsecDots email then false
        else if !(local_part.all isLocalC) then false
        else if !(domain_part.all isDomainChar) then false
        else if !(domain_part.contains '.') then false
        else if domain_part.headD ' ' = '.' || domain_part.getLastD ' ' = '.' ||
                domain_part.headD ' ' = '-' || domain_part.getLastD ' ' = '-' then false
        else decide (2 ≤ ((splitOnChar '.' domain_part).getLastD []).length)
      | _ => false

/-- The possible shapes of a candidate value reaching `is_valid_pii`: a
string, a tuple of regex groups, or `None`. -/
inductive RawMatch where
  | strV (s : List Char)
  | tupV (parts : List (Option (List Char)))
  | noneV
deriving DecidableEq

/-- `_normalize_match_value(raw_value)` from `src/detection/detector.py`
(leading underscore dropped): `None ↦ ""`; a tuple ↦ its first non-empty
string part, else the join of its truthy parts — with string-or-`None` groups
that join is empty; a string is returned unchanged. -/
def normalize_match_value : RawMatch → List Char
  | .noneV => []
  | .strV s => s
  | .tupV parts =>
    match parts.findSome? (fun p => match p with
      | some s => if s.isEmpty then none else some s
      | none => none) with
    | some s => s
    | none => []

/-- `is_valid_pii(pii_type, value)` from `src/validation/validators.py`. -/
def is_valid_pii (pii_type : String) (value0 : RawMatch) : Bool :=
  let value := normalize_match_value value0
  let digits_only := digitsOf value
  let mapped_type := mappedType pii_type
  if mapped_type = "aadhaar" then
    decide (digits_only.length = 12) && "23456789".data.contains (digits_only.headD ' ')
      && verhoeff_check digits_only
  else if mapped_type = "pan" then validate_pan value none
  else if mapped_type = "credit_card" then
    decide (13 ≤ digits_only.length) && decide (digits_only.length ≤ 19) && luhn_check value
  else if mapped_type = "email" then validate_email value
  else if mapped_type = "phone" then
    decide (digits_only.length = 10) &&
      decide ('6' ≤ digits_only.headD ' ') && decide (digits_only.headD ' ' ≤ '9') &&
      digits_only.all isDigitC
  else false

/-- `is_valid_pii` applied to a plain string value, as the orchestrator and
the ground-truth check call it. -/
def is_valid_pii_s (pii_type : String) (value : List Char) : Bool :=
  is_valid_pii pii_type (.strV value)

/-- `any_true_pii(text)` from `src/detection/detector.py`: `False` on
empty/`None` text, else whether some detected candidate validates. -/
def any_true_pii : Option (List Char) → Bool
  | none => false
  | some [] => false
  | some (c :: r) => (detect_pii (some (c :: r))).any (fun d => is_valid_pii_s d.1 d.2)

/-! ### De-identification (`src/deidentification/*.py`)

The module-level mutable dictionaries (`pseudo_counters`, `pseudo_maps`) and
the function attributes of `selective_deidentify` (`email_map`,
`email_counter`) become one explicit state record threaded through the calls,
as §9 of the spec prescribes for a reimplementation. -/

structure PseudoState where
  pseudo_counters : List (String × Nat)
  pseudo_maps : List (String × List (List Char × List Char))
  sel_email_map : List (List Char × List Char)
  sel_email_counter : Nat
deriving DecidableEq

/-- Overwrite the value stored at an (existing) key of an association list —
Python dict assignment to a present key. -/
def aupdate {α β : Type} [DecidableEq α] (l : List (α × β)) (key : α) (v : β) :
    List (α × β) :=
  l.map (fun p => if p.1 = key then (key, v) else p)

/-- The module state at import time: `pseudo_counters = {t: 1 for t in patterns}`,
`pseudo_maps = {t: {} for t in patterns}` (dict order), and the selective
email map/counter at the values their first-call initialization assigns. -/
def initState : PseudoState :=
  { pseudo_counters :=
      [("aadhaar", 1), ("pan", 1), ("credit_card", 1), ("email", 1), ("phone", 1)],
    pseudo_maps :=
      [("aadhaar", []), ("pan", []), ("credit_card", []), ("email", []), ("phone", [])],
    sel_email_map := [],
    sel_email_counter := 1 }

/-- `pseudo_anonymize(value, pii_type)` from pseudonymization.py: consistent
`"{pii_type}_{counter}"` replacement.  `none` embeds the `KeyError` raised by
`pseudo_maps[pii_type]` / `pseudo_counters[pii_type]` on an unknown key. -/
def pseudo_anonymize (value : List Char) (pii_type : String) (st : PseudoState) :
    Option (List Char × PseudoState) :=
  match alookup st.pseudo_maps pii_type with
  | none => none
  | some m =>
    match alookup m value with
    | some r => some (r, st)
    | none =>
      match alookup st.pseudo_counters pii_type with
      | none => none
      | some n =>
        let repl := pii_type.data ++ '_' :: natChars n
        some (repl, { st with
          pseudo_maps := aupdate st.pseudo_maps pii_type (m ++ [(value, repl)]),
          pseudo_counters := aupdate st.pseudo_counters pii_type (n + 1) })

/-- The `try: _, domain = value.strip().split("@") except: domain = "gmail.com"`
idiom of the email pseudonymizers: the domain part when the stripped value
splits on exactly one `@`, else `"gmail.com"`. -/
def emailDomain (value : List Char) : List Char :=
  match splitOnChar '@' (pyStrip value) with
  | [_, d] => d
  | _ => "gmail.com".data

/-- `pseudo_anonymize_pii(pii_type, value)` from pseudonymization.py: the
email special case `"user{counter}@{domain}"` on its own `"email"` map, any
other mapped type via `pseudo_anonymize`. -/
def pseudo_anonymize_pii (pii_type : String) (value : List Char) (st : PseudoState) :
    Option (List Char × PseudoState) :=
  let mapped_type := mappedType pii_type
  if mapped_type = "email" then
    let domain := emailDomain value
    match alookup st.pseudo_maps "email" with
    | none => none
    | some m =>
      match alookup m value with
      | some r => some (r, st)
      | none =>
        match alookup st.pseudo_counters "email" with
        | none => none
        | some n =>
          let repl := "user".data ++ natChars n ++ '@' :: domain
          some (repl, { st with
            pseudo_maps := aupdate st.pseudo_maps "email" (m ++ [(value, repl)]),
            pseudo_counters := aupdate st.pseudo_counters "email" (n + 1) })
  else pseudo_anonymize value mapped_type st

/-- `mask_aadhaar` from masking.py: `first4-"XXXX"-last4` of the raw string
when it has exactly 12 digits. -/
def mask_aadhaar (a : List Char) : List Char :=
  if (digitsOf a).length = 12 then a.take 4 ++ "-XXXX-".data ++ a.drop (a.length - 4)
  else a

/-- `mask_pan` from masking.py. -/
def mask_pan (p : List Char) : List Char :=
  if p.length = 10 then p.take 5 ++ "****".data ++ p.drop (p.length - 1) else p

/-- `mask_credit_card` from masking.py. -/
def mask_credit_card (card : List Char) : List Char :=
  let d := digitsOf card
  if d.length < 13 then card else "XXXX-XXXX-XXXX-".data ++ d.drop (d.length - 4)

/-- `mask_email` from masking.py (`except: return email` on any split that is
not exactly two parts). -/
def mask_email (e : List Char) : List Char :=
  match splitOnChar '@' e with
  | [u, d] => List.replicate u.length 'x' ++ '@' :: d
  | _ => e

/-- `mask_phone` from masking.py. -/
def mask_phone (ph : List Char) : List Char :=
  let d := digitsOf ph
  if d.length = 10 then "XXXXXX".data ++ d.drop (d.length - 4) else "XXXXXXXXXX".data

/-- `mask_pii(pii_type, value)` from deidentifier.py. -/
def mask_pii (pii_type : String) (value : List Char) : List Char :=
  let mapped := mappedType pii_type
  if mapped = "aadhaar" then mask_aadhaar value
  else if mapped = "pan" then mask_pan value
  else if mapped = "credit_card" then mask_credit_card value
  else if mapped = "email" then mask_email value
  else if mapped = "phone" then mask_phone value
  else value

/-- `string.ascii_letters + string.digits`, the alphabet of `random_string`
inside `anonymize_pii`. -/
def asciiLettersDigits : List Char :=
  "abcdefghijklmnopqrstuvwxyzABCDEFGHIJKLMNOPQRSTUVWXYZ0123456789".data

/-- One draw of `random.choices`: the stream `g` supplies the index of each
successive draw into the 62-character alphabet. -/
def drawChar (g : Nat → Nat) (i : Nat) : Char :=
  asciiLettersDigits.getD (g i % asciiLettersDigits.length) 'a'

/-- `random_string(length)` inside `anonymize_pii`, drawing at stream
positions `start, …, start+len-1`. -/
def random_string (g : Nat → Nat) (start len : Nat) : List Char :=
  (List.range len).map (fun i => drawChar g (start + i))

/-- `anonymize_pii(pii_type, value)` from anonymization.py, parametrised by
the draw stream of this one call (fresh stream per call — no memory between
calls). -/
def anonymize_pii (g : Nat → Nat) (pii_type : String) (_value : List Char) : List Char :=
  let mapped := mappedType pii_type
  if mapped = "credit_card" then random_string g 0 16
  else if mapped = "email" then
    random_string g 0 8 ++ '@' :: (random_string g 8 5 ++ ".com".data)
  else if mapped = "aadhaar" then random_string g 0 12
  else if mapped = "pan" then
    (random_string g 0 5).map Char.toUpper ++ random_string g 5 4 ++
      (random_string g 9 1).map Char.toUpper
  else if mapped = "phone" then '9' :: random_string g 0 9
  else random_string g 0 10

def asciiUppercase : List Char := "ABCDEFGHIJKLMNOPQRSTUVWXYZ".data

def asciiDigits : List Char := "0123456789".data

/-- `selective_deidentify(pii_type, value)` from pseudonymization.py, with the
function-attribute email map/counter as explicit state; the PAN branch draws
from stream `g` (five uppercase draws, four digit draws, one uppercase draw). -/
def selective_deidentify (g : Nat → Nat) (pii_type : String) (value : List Char)
    (st : PseudoState) : List Char × PseudoState :=
  let tl := pyLower pii_type
  if tl = "credit_card" then
    let d := digitsOf value
    if d.length < 13 then (value, st)
    else ("XXXX-XXXX-XXXX-".data ++ d.drop (d.length - 4), st)
  else if tl = "email" then
    let domain := emailDomain value
    match alookup st.sel_email_map value with
    | some r => (r, st)
    | none =>
      let repl := "email".data ++ natChars st.sel_email_counter ++ '@' :: domain
      (repl, { st with sel_email_map := st.sel_email_map ++ [(value, repl)],
                       sel_email_counter := st.sel_email_counter + 1 })
  else if tl = "aadhaar" then
    let d := digitsOf value
    if d.length = 12 then (d.take 4 ++ "XXXX".data ++ d.drop 8, st) else (value, st)
  else if tl = "pan" then
    ((List.range 5).map (fun i => asciiUppercase.getD (g i % 26) 'A') ++
     ((List.range 4).map (fun i => asciiDigits.getD (g (5 + i) % 10) '0') ++
      [asciiUppercase.getD (g 9 % 26) 'A']), st)
  else (value, st)

/-- `deidentify_value(method, pii_type, value)` from deidentifier.py: strategy
dispatch; an unrecognized method name is a passthrough. -/
def deidentify_value (g : Nat → Nat) (method pii_type : String) (value : List Char)
    (st : PseudoState) : Option (List Char × PseudoState) :=
  if method = "Masking" then some (mask_pii pii_type value, st)
  else if method = "Anonymization" then some (anonymize_pii g pii_type value, st)
  else if method = "Pseudo-Anonymization" then pseudo_anonymize_pii pii_type value st
  else if method = "Selective" then some (selective_deidentify g pii_type value st)
  else some (value, st)

/-! ### Cell-level orchestrator (`main.py`, `analyze_dataframe`) -/

inductive Outcome where
  | TP | TN | FP | FN
deriving DecidableEq

/-- The per-cell TP/TN/FP/FN classification of `analyze_dataframe`
(`main.py` lines 222–257): detections, ground truth, then the `if/elif`
ladder on `has_detection` / `valid_detection` / `has_ground_truth`. -/
def classify_cell (value : List Char) : Outcome :=
  let detections := detect_pii (some value)
  let has_ground_truth := any_true_pii (some value)
  let has_detection := !detections.isEmpty
  if has_detection then
    let valid_detection := detections.any (fun d => is_valid_pii_s d.1 d.2)
    if valid_detection && has_ground_truth then .TP
    else if valid_detection && !has_ground_truth then .FP
    else if !valid_detection && has_ground_truth then .FN
    else .FP
  else if has_ground_truth then .FN else .TN

/-- The six-row classification decision table exactly as the spec's §4.6
states it, as a function of (detection present, ≥1 validator-confirmed
candidate, ground truth). -/
def spec_table (hasDetection confirmed groundTruth : Bool) : Outcome :=
  if hasDetection then
    if confirmed then (if groundTruth then .TP else .FP)
    else (if groundTruth then .FN else .FP)
  else (if groundTruth then .FN else .TN)

/-! ### Helper lemmas -/

theorem isUpperAZ_toNat {c : Char} (h : isUpperAZ c = true) :
    65 ≤ c.toNat ∧ c.toNat ≤ 90 := by
  simp [isUpperAZ, Char.le_def] at h
  exact h

theorem isDigitC_toNat {c : Char} (h : isDigitC c = true) :
    48 ≤ c.toNat ∧ c.toNat ≤ 57 := by
  simp [isDigitC, Char.le_def] at h
  exact h

theorem upper_isAlpha {c : Char} (h : isUpperAZ c = true) : c.isAlpha = true := by
  obtain ⟨h1, h2⟩ := isUpperAZ_toNat h
  have hu : c.isUpper = true := by
    unfold Char.isUpper
    rw [Bool.and_eq_true]
    exact ⟨decide_eq_true h1, decide_eq_true h2⟩
  simp [Char.isAlpha, hu]

theorem upper_toUpper {c : Char} (h : isUpperAZ c = true) : c.toUpper = c := by
  obtain ⟨h1, h2⟩ := isUpperAZ_toNat h
  unfold Char.toUpper
  rw [if_neg]
  omega

theorem digit_not_alpha {c : Char} (h : isDigitC c = true) : c.isAlpha = false := by
  obtain ⟨h1, h2⟩ := isDigitC_toNat h
  have hu : c.isUpper = false := by
    unfold Char.isUpper
    rw [Bool.and_eq_false_iff]
    left
    rw [decide_eq_false_iff_not]
    intro hx
    have : (65 : Nat) ≤ c.toNat := hx
    omega
  have hl : c.isLower = false := by
    unfold Char.isLower
    rw [Bool.and_eq_false_iff]
    left
    rw [decide_eq_false_iff_not]
    intro hx
    have : (97 : Nat) ≤ c.toNat := hx
    omega
  simp [Char.isAlpha, hu, hl]

theorem digit_toUpper {c : Char} (h : isDigitC c = true) : c.toUpper = c := by
  obtain ⟨h1, h2⟩ := isDigitC_toNat h
  unfold Char.toUpper
  rw [if_neg]
  omega

theorem upper_not_digit {c : Char} (h : isUpperAZ c = true) : isDigitC c = false := by
  obtain ⟨h1, h2⟩ := isUpperAZ_toNat h
  rw [isDigitC, Bool.and_eq_false_iff]
  right
  rw [decide_eq_false_iff_not]
  intro hx
  have : c.toNat ≤ 57 := by simpa [Char.le_def] using hx
  omega

theorem pyStrip_sublist (l : List Char) : List.Sublist (pyStrip l) l := by
  unfold pyStrip
  have h1 : List.Sublist (l.dropWhile isPySpace) l := List.dropWhile_sublist isPySpace
  have h2 : List.Sublist ((l.dropWhile isPySpace).reverse.dropWhile isPySpace)
      (l.dropWhile isPySpace).reverse := List.dropWhile_sublist isPySpace
  have h3 := h2.reverse
  rw [List.reverse_reverse] at h3
  exact h3.trans h1

theorem pyStrip_eq_self_of_length {l : List Char} (h : (pyStrip l).length = l.length) :
    pyStrip l = l :=
  (pyStrip_sublist l).eq_of_length h

theorem alookup_aupdate_self {α β : Type} [DecidableEq α] (l : List (α × β)) (k : α)
    (x : β) (h : (alookup l k).isSome) : alookup (aupdate l k x) k = some x := by
  induction l with
  | nil => simp [alookup] at h
  | cons p r ih =>
    by_cases hk : p.1 = k
    · show alookup ((if p.1 = k then (k, x) else p) :: aupdate r k x) k = some x
      rw [if_pos hk]
      simp [alookup]
    · have hk2 : ¬ (k = p.1) := fun he => hk he.symm
      have h' : (alookup r k).isSome = true := by
        have he : alookup (p :: r) k = alookup r k := by
          show (if k = p.1 then some p.2 else alookup r k) = alookup r k
          rw [if_neg hk2]
        rwa [he] at h
      show alookup ((if p.1 = k then (k, x) else p) :: aupdate r k x) k = some x
      rw [if_neg hk]
      show (if k = p.1 then some p.2 else alookup (aupdate r k x) k) = some x
      rw [if_neg hk2]
      exact ih h'

theorem alookup_append_left_none {α β : Type} [DecidableEq α] (l₁ l₂ : List (α × β))
    (k : α) (h : alookup l₁ k = none) : alookup (l₁ ++ l₂) k = alookup l₂ k := by
  induction l₁ with
  | nil => simp
  | cons p r ih =>
    by_cases hk : k = p.1
    · simp [alookup, hk] at h
    · simp only [alookup, if_neg hk] at h
      simp only [List.cons_append, alookup, if_neg hk]
      exact ih h

theorem detect_pii_nil : detect_pii (some ([] : List Char)) = [] := by decide

theorem any_true_pii_eq_any (v : List Char) :
    any_true_pii (some v) =
      (detect_pii (some v)).any (fun d => is_valid_pii_s d.1 d.2) := by
  cases v with
  | nil => rw [any_true_pii, detect_pii_nil]; rfl
  | cons c r => rfl

theorem classify_cell_eq_table (v : List Char) :
    classify_cell v =
      spec_table (!(detect_pii (some v)).isEmpty)
        ((detect_pii (some v)).any (fun d => is_valid_pii_s d.1 d.2))
        (any_true_pii (some v)) := by
  unfold classify_cell spec_table
  cases h1 : (detect_pii (some v)).isEmpty <;>
    cases h2 : (detect_pii (some v)).any (fun d => is_valid_pii_s d.1 d.2) <;>
      cases h3 : any_true_pii (some v) <;>
        simp [h1, h2, h3]

/-! ### The claims -/

/-- C1: for every input cell, the orchestrator's TP/TN/FP/FN classification
follows the six-row decision table exactly: `classify_cell` agrees with the
spec's table applied to (detection present, at least one validator-confirmed
candidate, ground truth). -/
theorem classification_follows_decision_table (v : List Char) :
    classify_cell v =
      spec_table (!(detect_pii (some v)).isEmpty)
        ((detect_pii (some v)).any (fun d => is_valid_pii_s d.1 d.2))
        (any_true_pii (some v)) :=
  classify_cell_eq_table v

/-- C2: the ground-truth signal `any_true_pii` is exactly the predicate "some
detected candidate validates", so a cell can only ever be classified TP, FP
or TN: the FN outcome is impossible, and a confirmed detection with a false
ground truth cannot occur. -/
theorem ground_truth_equals_validation_no_fn (v : List Char) :
    any_true_pii (some v) = (detect_pii (some v)).any (fun d => is_valid_pii_s d.1 d.2)
    ∧ classify_cell v ≠ Outcome.FN
    ∧ (classify_cell v = Outcome.TP ∨ classify_cell v = Outcome.FP ∨
        classify_cell v = Outcome.TN)
    ∧ ¬((detect_pii (some v)).any (fun d => is_valid_pii_s d.1 d.2) = true ∧
        any_true_pii (some v) = false) := by
  have hg := any_true_pii_eq_any v
  have hc := classify_cell_eq_table v
  rw [hg] at hc
  refine ⟨hg, ?_, ?_, ?_⟩
  · rw [hc]
    unfold spec_table
    cases h1 : (detect_pii (some v)).isEmpty with
    | true =>
      have he : detect_pii (some v) = [] := by simpa using h1
      simp [he]
    | false =>
      cases h2 : (detect_pii (some v)).any (fun d => is_valid_pii_s d.1 d.2) <;> simp
  · rw [hc]
    unfold spec_table
    cases h1 : (detect_pii (some v)).isEmpty with
    | true =>
      have he : detect_pii (some v) = [] := by simpa using h1
      simp [he]
    | false =>
      cases h2 : (detect_pii (some v)).any (fun d => is_valid_pii_s d.1 d.2) <;> simp
  · rintro ⟨h2, h3⟩
    rw [hg, h2] at h3
    exact Bool.noConfusion h3

/-- C9: empty or null input text yields no detection candidates and a false
ground truth, with both functions total. -/
theorem empty_input_no_candidates_no_ground_truth :
    detect_pii none = [] ∧ detect_pii (some []) = []
    ∧ any_true_pii none = false ∧ any_true_pii (some []) = false :=
  ⟨by decide, detect_pii_nil, rfl, rfl⟩

theorem detectPiiOn_credit_card_digits {s v : List Char}
    (hmem : ("credit_card", v) ∈ detectPiiOn s) : (digitsOf v).length ≠ 12 := by
  unfold detectPiiOn at hmem
  split at hmem
  · simp at hmem
  · obtain ⟨p, hp, heq⟩ := List.mem_filterMap.mp hmem
    split at heq
    · exact Option.noConfusion heq
    · have hinj := Prod.mk.injEq .. ▸ Option.some.inj heq
      have hp1 : p.1 = "credit_card" := hinj.1
      have hpv : p.2.1 = v := hinj.2
      obtain ⟨hp2, _⟩ := List.mem_filter.mp hp
      obtain ⟨_, hcond⟩ := List.mem_filter.mp hp2
      rw [hp1, hpv] at hcond
      simpa using hcond

/-- C6: `detect_pii` never returns a credit-card candidate whose digits
(separators stripped) number exactly 12, and the bare 12-digit text
"123456789012" is classified only as aadhaar. -/
theorem no_twelve_digit_credit_card :
    (∀ (text : Option (List Char)) (v : List Char),
       ("credit_card", v) ∈ detect_pii text → (digitsOf v).length ≠ 12)
    ∧ detect_pii (some "123456789012".data) = [("aadhaar", "123456789012".data)] := by
  refine ⟨?_, by decide⟩
  intro text v hmem
  exact detectPiiOn_credit_card_digits hmem

/-- C6 witness: a 16-digit credit-card candidate really does appear in
`detect_pii`'s output, and the theorem applies to it. -/
theorem no_twelve_digit_credit_card_witness :
    (digitsOf "1234567812345670".data).length ≠ 12 :=
  no_twelve_digit_credit_card.1 (some "1234567812345670".data)
    "1234567812345670".data (by decide)

/-- C10: a PII type whose mapped key is none of the five known keys is never
validated (no exception — `is_valid_pii` totally returns `false`), and
`is_valid_pii` sees any candidate value only through
`normalize_match_value`, so tuples and `None` are tolerated. -/
theorem unknown_type_not_validated (t : String) (v : RawMatch) :
    (mappedType t ∉ (["aadhaar", "pan", "credit_card", "email", "phone"] : List String) →
       is_valid_pii t v = false)
    ∧ is_valid_pii t v = is_valid_pii t (.strV (normalize_match_value v)) := by
  constructor
  · intro h
    have h1 : ¬ (mappedType t = "aadhaar") := fun he => h (by rw [he]; simp)
    have h2 : ¬ (mappedType t = "pan") := fun he => h (by rw [he]; simp)
    have h3 : ¬ (mappedType t = "credit_card") := fun he => h (by rw [he]; simp)
    have h4 : ¬ (mappedType t = "email") := fun he => h (by rw [he]; simp)
    have h5 : ¬ (mappedType t = "phone") := fun he => h (by rw [he]; simp)
    simp [is_valid_pii, h1, h2, h3, h4, h5]
  · rfl

/-- C10 witness: an unknown type with a tuple-shaped candidate value. -/
theorem unknown_type_not_validated_witness :
    is_valid_pii "ssn" (.tupV [none, some "abc".data]) = false :=
  (unknown_type_not_validated "ssn" (.tupV [none, some "abc".data])).1 (by decide)

/-- C4: the anonymization replacements do not have the claimed (and
comment-documented) shapes: drawing constantly at index 0 of the
letters-plus-digits alphabet, the aadhaar replacement is the 12-letter
string "aaaaaaaaaaaa" instead of 12 digits, the phone replacement's tail and
the PAN replacement's middle four are letters instead of digits. -/
theorem anonymize_pii_shape_bug :
    anonymize_pii (fun _ => 0) "aadhaar" [] = "aaaaaaaaaaaa".data
    ∧ (anonymize_pii (fun _ => 0) "aadhaar" []).all isDigitC = false
    ∧ ((anonymize_pii (fun _ => 0) "phone" []).drop 1).all isDigitC = false
    ∧ (((anonymize_pii (fun _ => 0) "pan" []).drop 5).take 4).all isDigitC = false := by
  decide

/-- C7 counterexample: Pseudo-Anonymization of an unknown PII type raises
`KeyError` (embedded as `none`) instead of falling back. -/
theorem deidentify_unknown_type_keyerror :
    deidentify_value (fun _ => 0) "Pseudo-Anonymization" "ssn" "123".data initState
      = none := by
  decide

/-- C7 (amended): an unrecognized strategy name is a passthrough, and
Masking, Anonymization and Selective never fail for any PII type; but
Pseudo-Anonymization of a type whose mapped key has no entry in the
pseudonymization maps — any type outside the five known keys, as from the
initial state — raises `KeyError` instead of falling back. -/
theorem deidentify_fallback (g : Nat → Nat) (method t : String) (v : List Char)
    (st : PseudoState) :
    (method ∉ (["Masking", "Anonymization", "Pseudo-Anonymization", "Selective"] :
        List String) → deidentify_value g method t v st = some (v, st))
    ∧ (method = "Masking" ∨ method = "Anonymization" ∨ method = "Selective" →
        (deidentify_value g method t v st).isSome = true)
    ∧ (mappedType t ≠ "email" → alookup st.pseudo_maps (mappedType t) = none →
        deidentify_value g "Pseudo-Anonymization" t v st = none) := by
  refine ⟨?_, ?_, ?_⟩
  · intro h
    have h1 : ¬ (method = "Masking") := fun he => h (by rw [he]; simp)
    have h2 : ¬ (method = "Anonymization") := fun he => h (by rw [he]; simp)
    have h3 : ¬ (method = "Pseudo-Anonymization") := fun he => h (by rw [he]; simp)
    have h4 : ¬ (method = "Selective") := fun he => h (by rw [he]; simp)
    simp [deidentify_value, h1, h2, h3, h4]
  · rintro (he | he | he) <;> subst he <;> simp [deidentify_value]
  · intro he hm
    have hd : deidentify_value g "Pseudo-Anonymization" t v st
        = pseudo_anonymize_pii t v st := by
      simp [deidentify_value]
    rw [hd]
    unfold pseudo_anonymize_pii
    rw [if_neg he]
    unfold pseudo_anonymize
    rw [hm]

/-- C7 witness: the amended theorem at concrete inputs — a bogus strategy
passes the value through, and Pseudo-Anonymization of "ssn" from the initial
state fails. -/
theorem deidentify_fallback_witness :
    deidentify_value (fun _ => 0) "Bogus" "pan" ['1'] initState
        = some (['1'], initState)
    ∧ deidentify_value (fun _ => 0) "Pseudo-Anonymization" "ssn" ['1'] initState
        = none :=
  ⟨(deidentify_fallback (fun _ => 0) "Bogus" "pan" ['1'] initState).1 (by decide),
   (deidentify_fallback (fun _ => 0) "Bogus" "ssn" ['1'] initState).2.2 (by decide)
     (by decide)⟩

/-- C8: the Selective strategy's email pseudonymization and the
Pseudo-Anonymization strategy's email pseudonymization use disjoint state —
each call leaves the other's map and counter untouched — and running both on
the same email in the same run from the initial state yields the
independently numbered "user1@b.co" and "email1@b.co". -/
theorem selective_pseudo_email_state_disjoint :
    (∀ (t : String) (v : List Char) (st : PseudoState) (r : List Char)
       (st' : PseudoState), pseudo_anonymize_pii t v st = some (r, st') →
         st'.sel_email_map = st.sel_email_map ∧
         st'.sel_email_counter = st.sel_email_counter)
    ∧ (∀ (g : Nat → Nat) (t : String) (v : List Char) (st : PseudoState),
        (selective_deidentify g t v st).2.pseudo_maps = st.pseudo_maps ∧
        (selective_deidentify g t v st).2.pseudo_counters = st.pseudo_counters)
    ∧ (pseudo_anonymize_pii "email" "a@b.co".data initState).map Prod.fst
        = some "user1@b.co".data
    ∧ (pseudo_anonymize_pii "email" "a@b.co".data initState).map
        (fun p => (selective_deidentify (fun _ => 0) "email" "a@b.co".data p.2).1)
        = some "email1@b.co".data := by
  refine ⟨?_, ?_, by decide, by decide⟩
  · intro t v st r st' h
    unfold pseudo_anonymize_pii at h
    by_cases he : mappedType t = "email"
    · rw [if_pos he] at h
      cases hm : alookup st.pseudo_maps "email" with
      | none => simp only [hm] at h; exact Option.noConfusion h
      | some m =>
        simp only [hm] at h
        cases hr : alookup m v with
        | some r0 =>
          simp only [hr] at h
          have := (Prod.mk.injEq .. ▸ Option.some.inj h).2
          rw [← this]
          exact ⟨rfl, rfl⟩
        | none =>
          simp only [hr] at h
          cases hn : alookup st.pseudo_counters "email" with
          | none => simp only [hn] at h; exact Option.noConfusion h
          | some n =>
            simp only [hn] at h
            have := (Prod.mk.injEq .. ▸ Option.some.inj h).2
            rw [← this]
            exact ⟨rfl, rfl⟩
    · rw [if_neg he] at h
      unfold pseudo_anonymize at h
      cases hm : alookup st.pseudo_maps (mappedType t) with
      | none => simp only [hm] at h; exact Option.noConfusion h
      | some m =>
        simp only [hm] at h
        cases hr : alookup m v with
        | some r0 =>
          simp only [hr] at h
          have := (Prod.mk.injEq .. ▸ Option.some.inj h).2
          rw [← this]
          exact ⟨rfl, rfl⟩
        | none =>
          simp only [hr] at h
          cases hn : alookup st.pseudo_counters (mappedType t) with
          | none => simp only [hn] at h; exact Option.noConfusion h
          | some n =>
            simp only [hn] at h
            have := (Prod.mk.injEq .. ▸ Option.some.inj h).2
            rw [← this]
            exact ⟨rfl, rfl⟩
  · intro g t v st
    simp only [selective_deidentify]
    split_ifs <;>
      first
        | exact ⟨rfl, rfl⟩
        | (cases hm : alookup st.sel_email_map v <;> simp [hm])

/-- C8 witness: the frame part of the theorem applied at a concrete fresh
pseudonymization call from the initial state. -/
theorem selective_pseudo_email_state_disjoint_witness :
    (PseudoState.mk
        [("aadhaar", 1), ("pan", 1), ("credit_card", 1), ("email", 1), ("phone", 2)]
        [("aadhaar", []), ("pan", []), ("credit_card", []), ("email", []),
         ("phone", [(['9'], "phone_1".data)])]
        [] 1).sel_email_map = initState.sel_email_map :=
  (selective_pseudo_email_state_disjoint.1 "phone" ['9'] initState "phone_1".data
    (PseudoState.mk
        [("aadhaar", 1), ("pan", 1), ("credit_card", 1), ("email", 1), ("phone", 2)]
        [("aadhaar", []), ("pan", []), ("credit_card", []), ("email", []),
         ("phone", [(['9'], "phone_1".data)])]
        [] 1) (by decide)).1

theorem pseudo_anonymize_pii_stored (t : String) (st : PseudoState)
    (m : List (List Char × List Char)) (v r : List Char)
    (hm : alookup st.pseudo_maps (mappedType t) = some m)
    (hr : alookup m v = some r) :
    pseudo_anonymize_pii t v st = some (r, st) := by
  by_cases he : mappedType t = "email"
  · rw [he] at hm
    simp only [pseudo_anonymize_pii, if_pos he, hm, hr]
  · simp only [pseudo_anonymize_pii, if_neg he, pseudo_anonymize, hm, hr]

theorem pseudo_anonymize_pii_fresh (t : String) (st : PseudoState)
    (m : List (List Char × List Char)) (n : Nat) (v : List Char)
    (he : mappedType t ≠ "email")
    (hm : alookup st.pseudo_maps (mappedType t) = some m)
    (hn : alookup st.pseudo_counters (mappedType t) = some n)
    (hv : alookup m v = none) :
    pseudo_anonymize_pii t v st =
      some ((mappedType t).data ++ '_' :: natChars n,
        { st with
          pseudo_maps := aupdate st.pseudo_maps (mappedType t)
            (m ++ [(v, (mappedType t).data ++ '_' :: natChars n)]),
          pseudo_counters := aupdate st.pseudo_counters (mappedType t) (n + 1) }) := by
  simp only [pseudo_anonymize_pii, if_neg he, pseudo_anonymize, hm, hv, hn]

/-- C5: within one run pseudonymization is consistent and counter-ordered: a
stored value returns its stored replacement with the state unchanged; a
fresh value is recorded as `"{type}_{counter}"` at the type's current counter
(email: `"user{counter}@{domain}"`, where `emailDomain` falls back to
"gmail.com" when the value does not split on exactly one '@'), incrementing
that counter; and two distinct fresh values of a non-email type receive the
counter and its successor — necessarily different strings. -/
theorem pseudonymization_consistent (t : String) (st : PseudoState)
    (m : List (List Char × List Char)) (n : Nat) (v v' : List Char)
    (hm : alookup st.pseudo_maps (mappedType t) = some m)
    (hn : alookup st.pseudo_counters (mappedType t) = some n) :
    (∀ r, alookup m v = some r → pseudo_anonymize_pii t v st = some (r, st))
    ∧ (mappedType t ≠ "email" → alookup m v = none →
        pseudo_anonymize_pii t v st =
          some ((mappedType t).data ++ '_' :: natChars n,
            { st with
              pseudo_maps := aupdate st.pseudo_maps (mappedType t)
                (m ++ [(v, (mappedType t).data ++ '_' :: natChars n)]),
              pseudo_counters := aupdate st.pseudo_counters (mappedType t) (n + 1) }))
    ∧ (mappedType t = "email" → alookup m v = none →
        pseudo_anonymize_pii t v st =
          some ("user".data ++ natChars n ++ '@' :: emailDomain v,
            { st with
              pseudo_maps := aupdate st.pseudo_maps "email"
                (m ++ [(v, "user".data ++ natChars n ++ '@' :: emailDomain v)]),
              pseudo_counters := aupdate st.pseudo_counters "email" (n + 1) }))
    ∧ (mappedType t ≠ "email" → alookup m v = none → alookup m v' = none → v ≠ v' →
        ∃ st₁,
          pseudo_anonymize_pii t v st
              = some ((mappedType t).data ++ '_' :: natChars n, st₁)
          ∧ (pseudo_anonymize_pii t v' st₁).map Prod.fst
              = some ((mappedType t).data ++ '_' :: natChars (n + 1))
          ∧ (mappedType t).data ++ '_' :: natChars n
              ≠ (mappedType t).data ++ '_' :: natChars (n + 1)) := by
  refine ⟨fun r hr => pseudo_anonymize_pii_stored t st m v r hm hr,
    fun he hv => pseudo_anonymize_pii_fresh t st m n v he hm hn hv, ?_, ?_⟩
  · intro he hv
    rw [he] at hm hn
    simp only [pseudo_anonymize_pii, if_pos he, hm, hv, hn]
  · intro he hv hv' hvv
    refine ⟨_, pseudo_anonymize_pii_fresh t st m n v he hm hn hv, ?_, ?_⟩
    · have hm1 : alookup
          (aupdate st.pseudo_maps (mappedType t)
            (m ++ [(v, (mappedType t).data ++ '_' :: natChars n)])) (mappedType t)
          = some (m ++ [(v, (mappedType t).data ++ '_' :: natChars n)]) :=
        alookup_aupdate_self _ _ _ (by rw [hm]; rfl)
      have hn1 : alookup (aupdate st.pseudo_counters (mappedType t) (n + 1)) (mappedType t)
          = some (n + 1) :=
        alookup_aupdate_self _ _ _ (by rw [hn]; rfl)
      have hv1 : alookup (m ++ [(v, (mappedType t).data ++ '_' :: natChars n)]) v'
          = none := by
        rw [alookup_append_left_none _ _ _ hv']
        show (if v' = v then _ else alookup [] v') = none
        rw [if_neg (fun hvc => hvv hvc.symm)]
        rfl
      rw [pseudo_anonymize_pii_fresh t _ _ (n + 1) v' he hm1 hn1 hv1]
      rfl
    · intro hcontra
      have h2 := List.append_cancel_left hcontra
      injection h2 with _ h3
      have := natChars_injective h3
      omega

/-- C5 witness: two distinct phone numbers from the initial state get
"phone_1" and then "phone_2". -/
theorem pseudonymization_consistent_witness :
    ∃ st₁,
      pseudo_anonymize_pii "phone" "9876543210".data initState
          = some ("phone_1".data, st₁)
      ∧ (pseudo_anonymize_pii "phone" "9876543211".data st₁).map Prod.fst
          = some "phone_2".data
      ∧ ("phone_1".data : List Char) ≠ "phone_2".data := by
  obtain ⟨st₁, h1, h2, _⟩ := (pseudonymization_consistent "phone" initState [] 1
    "9876543210".data "9876543211".data (by decide) (by decide)).2.2.2
    (by decide) (by decide) (by decide) (by decide)
  have e1 : (mappedType "phone").data ++ '_' :: natChars 1 = "phone_1".data := by decide
  have e2 : (mappedType "phone").data ++ '_' :: natChars 2 = "phone_2".data := by decide
  rw [e1] at h1
  rw [e2] at h2
  exact ⟨st₁, h1, h2, by decide⟩

/-- One weighted position of the check digit as the claim words it: digits
valued as themselves, letters as `A=10…Z=35`, multiplied by the positional
weight, a product above 9 reduced by summing its (two) digit groups. -/
def specPanWeighted (c : Char) (w : Nat) : Nat :=
  let cv := if isDigitC c then digitVal c else c.toNat - 65 + 10
  let wv := cv * w
  if 9 < wv then wv / 10 + wv % 10 else wv

/-- The check digit of the claim (spec §4.3), computed from the first nine
characters with weights `[1,3,7,1,3,7,1,3,7]`, mapped onto `A`–`J`. -/
def specPanCheckChar (first9 : List Char) : Char :=
  Char.ofNat
    (65 + (10 - (List.zipWith specPanWeighted first9 [1, 3, 7, 1, 3, 7, 1, 3, 7]).sum % 10) % 10)

theorem panWeighted_eq_spec (c : Char) (w : Nat)
    (h : isUpperAZ c = true ∨ isDigitC c = true) :
    panWeighted c w = specPanWeighted c w := by
  rcases h with h | h
  · unfold panWeighted specPanWeighted
    rw [upper_isAlpha h, upper_toUpper h, upper_not_digit h]
    simp
  · unfold panWeighted specPanWeighted
    rw [digit_not_alpha h, h]
    simp

theorem exists_ten_of_length {α : Type} (p : List α) (hl : p.length = 10) :
    ∃ a b c d e f g h i j, p = [a, b, c, d, e, f, g, h, i, j] := by
  rcases p with _ | ⟨a, p⟩; · simp at hl
  rcases p with _ | ⟨b, p⟩; · simp at hl
  rcases p with _ | ⟨c, p⟩; · simp at hl
  rcases p with _ | ⟨d, p⟩; · simp at hl
  rcases p with _ | ⟨e, p⟩; · simp at hl
  rcases p with _ | ⟨f, p⟩; · simp at hl
  rcases p with _ | ⟨g, p⟩; · simp at hl
  rcases p with _ | ⟨h, p⟩; · simp at hl
  rcases p with _ | ⟨i, p⟩; · simp at hl
  rcases p with _ | ⟨j, p⟩; · simp at hl
  rcases p with _ | ⟨k, p⟩
  · exact ⟨a, b, c, d, e, f, g, h, i, j, rfl⟩
  · simp at hl

theorem validate_pan_check_core (p : List Char) (hlen : p.length = 10)
    (hv : validate_pan p none = true) :
    (p.getD 9 ' ').toUpper = specPanCheckChar ((p.take 9).map Char.toUpper) := by
  have hne : p ≠ [] := by intro h; subst h; simp at hlen
  simp only [validate_pan] at hv
  rw [if_neg hne] at hv
  by_cases hq : ((pyStrip p).map Char.toUpper).length ≠ 10
  · rw [if_pos hq] at hv; exact Bool.noConfusion hv
  · rw [if_neg hq] at hv
    push_neg at hq
    rw [List.length_map] at hq
    have hstrip : pyStrip p = p := pyStrip_eq_self_of_length (by rw [hq, hlen])
    rw [hstrip] at hv
    obtain ⟨c1, c2, c3, c4, c5, c6, c7, c8, c9, c10, rfl⟩ := exists_ten_of_length p hlen
    simp only [List.map_cons, List.map_nil] at hv
    split_ifs at hv with h1 h2 h3 h4
    have hshape : panShapeRe [c1.toUpper, c2.toUpper, c3.toUpper, c4.toUpper, c5.toUpper,
        c6.toUpper, c7.toUpper, c8.toUpper, c9.toUpper, c10.toUpper] = true := by
      simpa using h1
    simp only [panShapeRe, List.all_cons, List.all_nil, Bool.and_true,
      Bool.and_eq_true] at hshape
    obtain ⟨⟨⟨hu1, hu2, hu3, hu4, hu5⟩, hd6, hd7, hd8, hd9⟩, hu10⟩ := hshape
    simp only [validate_pan_check_digit] at hv
    have hck := of_decide_eq_true hv
    have hgd : ([c1, c2, c3, c4, c5, c6, c7, c8, c9, c10] : List Char).getD 9 ' ' = c10 :=
      rfl
    have htk : (([c1, c2, c3, c4, c5, c6, c7, c8, c9, c10] : List Char).take 9).map
        Char.toUpper = [c1.toUpper, c2.toUpper, c3.toUpper, c4.toUpper, c5.toUpper,
          c6.toUpper, c7.toUpper, c8.toUpper, c9.toUpper] := rfl
    rw [hgd, htk, hck]
    have e1 := panWeighted_eq_spec c1.toUpper 1 (Or.inl hu1)
    have e2 := panWeighted_eq_spec c2.toUpper 3 (Or.inl hu2)
    have e3 := panWeighted_eq_spec c3.toUpper 7 (Or.inl hu3)
    have e4 := panWeighted_eq_spec c4.toUpper 1 (Or.inl hu4)
    have e5 := panWeighted_eq_spec c5.toUpper 3 (Or.inl hu5)
    have e6 := panWeighted_eq_spec c6.toUpper 7 (Or.inr hd6)
    have e7 := panWeighted_eq_spec c7.toUpper 1 (Or.inr hd7)
    have e8 := panWeighted_eq_spec c8.toUpper 3 (Or.inr hd8)
    have e9 := panWeighted_eq_spec c9.toUpper 7 (Or.inr hd9)
    unfold specPanCheckChar
    have ezip : List.zipWith specPanWeighted [c1.toUpper, c2.toUpper, c3.toUpper,
        c4.toUpper, c5.toUpper, c6.toUpper, c7.toUpper, c8.toUpper, c9.toUpper]
        [1, 3, 7, 1, 3, 7, 1, 3, 7]
        = [specPanWeighted c1.toUpper 1, specPanWeighted c2.toUpper 3,
           specPanWeighted c3.toUpper 7, specPanWeighted c4.toUpper 1,
           specPanWeighted c5.toUpper 3, specPanWeighted c6.toUpper 7,
           specPanWeighted c7.toUpper 1, specPanWeighted c8.toUpper 3,
           specPanWeighted c9.toUpper 7] := rfl
    rw [ezip]
    have hsum : ([specPanWeighted c1.toUpper 1, specPanWeighted c2.toUpper 3,
        specPanWeighted c3.toUpper 7, specPanWeighted c4.toUpper 1,
        specPanWeighted c5.toUpper 3, specPanWeighted c6.toUpper 7,
        specPanWeighted c7.toUpper 1, specPanWeighted c8.toUpper 3,
        specPanWeighted c9.toUpper 7] : List Nat).sum
        = panWeighted c1.toUpper 1 + panWeighted c2.toUpper 3 +
          panWeighted c3.toUpper 7 + panWeighted c4.toUpper 1 +
          panWeighted c5.toUpper 3 + panWeighted c6.toUpper 7 +
          panWeighted c7.toUpper 1 + panWeighted c8.toUpper 3 +
          panWeighted c9.toUpper 7 := by
      simp only [List.sum_cons, List.sum_nil]
      omega
    rw [hsum]

/-- C3 counterexample: `validate_pan` uppercases before comparing, so
"ABCPE1234a" — the accepted "ABCPE1234A" with only its 10th character
altered — is still accepted, and is a 10-character accepted PAN string whose
10th character is not the check digit computed by the claim's recipe. -/
theorem pan_check_digit_case_counterexample :
    validate_pan "ABCPE1234A".data none = true
    ∧ validate_pan "ABCPE1234a".data none = true
    ∧ ("ABCPE1234a".data.length = 10 ∧
        "ABCPE1234a".data.getD 9 ' ' ≠ specPanCheckChar ("ABCPE1234a".data.take 9)) := by
  decide

/-- C3 (amended): `validate_pan` strips and uppercases its input before every
check, so for every accepted 10-character PAN string the *uppercased* 10th
character equals the check digit computed from the uppercased first nine by
the claimed algorithm, and altering the 10th character to any character
whose uppercase differs from that check digit makes the validator return
false. -/
theorem pan_check_digit_rule (p : List Char) (hlen : p.length = 10)
    (hv : validate_pan p none = true) :
    (p.getD 9 ' ').toUpper = specPanCheckChar ((p.take 9).map Char.toUpper)
    ∧ ∀ c : Char, c.toUpper ≠ specPanCheckChar ((p.take 9).map Char.toUpper) →
        validate_pan (p.take 9 ++ [c]) none = false := by
  refine ⟨validate_pan_check_core p hlen hv, ?_⟩
  intro c hc
  by_contra hfalse
  have h2 : validate_pan (p.take 9 ++ [c]) none = true := by
    revert hfalse
    cases validate_pan (p.take 9 ++ [c]) none <;> simp
  have h9 : (p.take 9).length = 9 := by
    rw [List.length_take]
    omega
  have hlen2 : (p.take 9 ++ [c]).length = 10 := by
    rw [List.length_append, h9]
    rfl
  have hcore := validate_pan_check_core _ hlen2 h2
  have hget : (p.take 9 ++ [c]).getD 9 ' ' = c := by
    rw [List.getD_append_right _ _ _ _ (by omega), h9]
    rfl
  have htake : (p.take 9 ++ [c]).take 9 = p.take 9 := by
    have := List.take_left (p.take 9) [c]
    rwa [h9] at this
  rw [hget, htake] at hcore
  exact hc hcore

/-- C3 witness: the amended theorem at the accepted "ABCPE1234A", whose
check digit is 'A', and the alteration of its 10th character to 'x'. -/
theorem pan_check_digit_rule_witness :
    ("ABCPE1234A".data.getD 9 ' ').toUpper
        = specPanCheckChar (("ABCPE1234A".data.take 9).map Char.toUpper)
    ∧ validate_pan ("ABCPE1234A".data.take 9 ++ ['x']) none = false := by
  have h := pan_check_digit_rule "ABCPE1234A".data (by decide) (by decide)
  exact ⟨h.1, h.2 'x' (by decide)⟩

end PiiDetector
